import Mathlib

/-!
Verification of `stats.py`, a translation-completeness reporting script.

The script is a sequential pipeline: check two external tools (`apt` and
`deepin-translation-utils`, the latter version-gated at 0.4.0), read a
package-name list file, and for each package fetch its source via the
package manager (skipping when a prefix-glob match already exists in the
destination directory), locate the source directory, invoke the external
stats tool, filter its output to table rows, and print a report section.

The shallow embedding below models external effects as explicit values:
subprocess invocations are an oracle `List String → CmdOutcome` from the
argument vector to the observed outcome, the destination directory is a
list of `Entry` values (name and directory flag) in filesystem enumeration
order, and printed output is the list of strings passed to `print` calls.
Every function is total, which models the script's per-package exception
handling: all failures of the fetch and stats steps are values, not
escapes.

Python's string primitives (`strip`, `split`, `startswith`) are embedded
as structurally recursive functions over the string's character list, so
that every definition evaluates on concrete inputs.
-/

/-- Outcome of one `subprocess.run` invocation, as observed by the caller:
normal completion with captured stdout and stderr, a nonzero exit raised as
`CalledProcessError` (because every call site passes `check=True`), the
binary missing (`FileNotFoundError`), or any other exception with its
string rendering. -/
inductive CmdOutcome where
  | ok (stdout stderr : String)
  | fail (returncode : Int) (stdout stderr : String)
  | notFound (msg : String)
  | exc (msg : String)
deriving DecidableEq

/-- One entry of the destination directory: its name and whether it is a
directory.  `Path.glob("<pkg>*")` is modelled as filtering a list of these
by a name-prefix test, in filesystem enumeration order. -/
structure Entry where
  name : String
  isDir : Bool
deriving DecidableEq

/-- Result of `check_dependencies`: normal return, `sys.exit(code)` with
the message printed to stderr, or an uncaught exception. -/
inductive DepResult where
  | ok
  | exits (code : Nat) (msg : String)
  | raises (msg : String)
deriving DecidableEq

/-- How opening and reading the package-list file went: its lines, a
`FileNotFoundError`, or any other exception with its rendering. -/
inductive FileResult where
  | ok (lines : List String)
  | notFound
  | otherError (msg : String)
deriving DecidableEq

/-- Result of `main`: an explicit `sys.exit(code)`, or falling off the end
of the function (process exit code 0) having printed the given report
sections, or an uncaught exception. -/
inductive MainResult where
  | exits (code : Nat)
  | completes (sections : List (List String))
  | raises (msg : String)
deriving DecidableEq

/-- The whitespace characters stripped by Python's `str.strip()` (the
ASCII ones, which are the only ones arising in this tool's data). -/
def pyIsSpace (c : Char) : Bool :=
  c == ' ' || c == '\t' || c == '\n' || c == '\r' || c == '\x0b' || c == '\x0c'

/-- Embeds Python `str.strip()`: drop whitespace from both ends. -/
def pyStrip (s : String) : String :=
  ⟨((s.data.dropWhile pyIsSpace).reverse.dropWhile pyIsSpace).reverse⟩

/-- Character-list version of the leading-pattern test. -/
def charsStartWith : List Char → List Char → Bool
  | _, [] => true
  | [], _ :: _ => false
  | c :: s, d :: pat => c == d && charsStartWith s pat

/-- Embeds Python `s.startswith(pat)`. -/
def pyStartsWith (s pat : String) : Bool :=
  charsStartWith s.data pat.data

/-- Character-list version of splitting on a one-character separator.
Mirrors Python `str.split(sep)`: the empty string yields one empty piece,
and a trailing separator yields a trailing empty piece. -/
def splitChars (sep : Char) : List Char → List (List Char)
  | [] => [[]]
  | c :: rest =>
    if c == sep then [] :: splitChars sep rest
    else
      match splitChars sep rest with
      | h :: t => (c :: h) :: t
      | [] => [[c]]

/-- Embeds Python `s.split(sep)` for a one-character separator. -/
def pySplit (sep : Char) (s : String) : List String :=
  (splitChars sep s.data).map (fun cs => (⟨cs⟩ : String))

/-- Maximal digit run at the front of a character list, with the rest.
Embeds the greedy matching of one `(\d+)` group of the version regex at a
fixed position: since the regex character after each group is a literal
dot (not a digit), greedy matching with backtracking coincides with taking
the maximal digit run. -/
def digitRun : List Char → List Char × List Char
  | [] => ([], [])
  | c :: rest =>
    if c.isDigit then
      let p := digitRun rest
      (c :: p.1, p.2)
    else ([], c :: rest)

/-- Decimal value of a digit run, embedding Python `int` on the captured
group. -/
def digitsToNat (ds : List Char) : Nat :=
  ds.foldl (fun acc c => acc * 10 + (c.toNat - 48)) 0

/-- The literal part of the version pattern. -/
def versionTag : List Char := "deepin-translation-utils ".data

/-- Try to match `deepin-translation-utils (\d+)\.(\d+)\.(\d+)` at the
start of `cs`, returning the three captured groups as numbers. -/
def matchVersionAt (cs : List Char) : Option (Nat × Nat × Nat) :=
  if cs.take versionTag.length = versionTag then
    let r0 := cs.drop versionTag.length
    let p1 := digitRun r0
    if p1.1 = [] then none else
      match p1.2 with
      | '.' :: r1 =>
        let p2 := digitRun r1
        if p2.1 = [] then none else
          match p2.2 with
          | '.' :: r2 =>
            let p3 := digitRun r2
            if p3.1 = [] then none
            else some (digitsToNat p1.1, digitsToNat p2.1, digitsToNat p3.1)
          | _ => none
      | _ => none
  else none

/-- Embeds `re.search(r'deepin-translation-utils (\d+)\.(\d+)\.(\d+)', s)`
on the character list of `s`: scan left to right and return the captures of
the leftmost match, `none` when no position matches. -/
def reSearchVersion : List Char → Option (Nat × Nat × Nat)
  | [] => none
  | c :: rest =>
    match matchVersionAt (c :: rest) with
    | some v => some v
    | none => reSearchVersion rest

/-- Python lexicographic comparison of `(major, minor, patch)` tuples,
used by `version < (0, 4, 0)`. -/
def versionLt (a b : Nat × Nat × Nat) : Bool :=
  Nat.blt a.1 b.1 ||
    (a.1 == b.1 && (Nat.blt a.2.1 b.2.1 ||
      (a.2.1 == b.2.1 && Nat.blt a.2.2 b.2.2)))

/-- Embeds `check_dependencies` (stats.py lines 18-48).  `aptV` is the
outcome of `apt --version`, `dtuV` that of `deepin-translation-utils -V`.
The version parse failure and the version-too-low branches call
`sys.exit(1)` inside the `try`, which the `except` clause (covering only
`CalledProcessError` and `FileNotFoundError`) does not catch. -/
def check_dependencies (aptV dtuV : CmdOutcome) : DepResult :=
  match aptV with
  | .fail _ _ _ => .exits 1 "错误: 未找到 apt 命令，请确保在支持 apt 的系统上运行此工具"
  | .notFound _ => .exits 1 "错误: 未找到 apt 命令，请确保在支持 apt 的系统上运行此工具"
  | .exc m => .raises m
  | .ok _ _ =>
    match dtuV with
    | .fail _ _ _ => .exits 1 "错误: 未找到 deepin-translation-utils 命令，请先安装此工具"
    | .notFound _ => .exits 1 "错误: 未找到 deepin-translation-utils 命令，请先安装此工具"
    | .exc m => .raises m
    | .ok stdout _ =>
      let version_output := pyStrip stdout
      match reSearchVersion version_output.data with
      | none => .exits 1 "错误: 无法解析 deepin-translation-utils 版本号"
      | some (major, minor, patch) =>
        if versionLt (major, minor, patch) (0, 4, 0) then
          .exits 1 ("错误: deepin-translation-utils 版本过低 (" ++ toString major ++ "." ++
            toString minor ++ "." ++ toString patch ++ ")，需要 >= 0.4.0")
        else .ok

/-- Embeds the pure core of `read_package_list` (stats.py line 55): the
comprehension over the file's lines.  Python's condition tests the
stripped line for nonemptiness but `startswith('#')` on the raw line. -/
def read_package_list (fileLines : List String) : List String :=
  (fileLines.filter (fun line => pyStrip line != "" && !(pyStartsWith line "#"))).map pyStrip

/-- Embeds `download_source_package` (stats.py lines 65-90).  `entries` is
the destination directory's contents; `run` maps an argument vector to the
observed subprocess outcome.  Returns the `(success, message)` pair and,
as instrumentation, the list of argument vectors actually invoked. -/
def download_source_package (package_name : String) (entries : List Entry)
    (run : List String → CmdOutcome) : (Bool × String) × List (List String) :=
  let existing_dirs := entries.filter (fun e => pyStartsWith e.name package_name)
  match existing_dirs with
  | e :: _ => ((true, "源码已存在，跳过下载: " ++ e.name), [])
  | [] =>
    let cmd := ["apt", "source", package_name]
    match run cmd with
    | .ok _ _ => ((true, "下载成功"), [cmd])
    | .fail _ _ stderr => ((false, "apt source 失败: " ++ pyStrip stderr), [cmd])
    | .notFound m => ((false, "下载异常: " ++ m), [cmd])
    | .exc m => ((false, "下载异常: " ++ m), [cmd])

/-- Embeds `find_source_directory` (stats.py lines 93-101): glob for
prefix matches, keep only directories, return the first or the empty
string. -/
def find_source_directory (package_name : String) (entries : List Entry) : String :=
  let matching_dirs :=
    (entries.filter (fun p => pyStartsWith p.name package_name)).filter (fun p => p.isDir)
  match matching_dirs with
  | [] => ""
  | p :: _ => p.name

/-- Embeds `get_translation_stats` (stats.py lines 104-128).  Returns the
`(success, output_or_error)` pair and, as instrumentation, the argument
vector handed to `subprocess.run`. -/
def get_translation_stats (source_path : String) (languages : List String)
    (run : List String → CmdOutcome) : (Bool × String) × List String :=
  let cmd := ["deepin-translation-utils", "stats", source_path, "-l",
    String.intercalate "," languages]
  match run cmd with
  | .ok stdout _ => ((true, stdout), cmd)
  | .fail rc _ stderr =>
    ((false, "deepin-translation-utils 执行失败 (返回码: " ++ toString rc ++ "): " ++
      pyStrip stderr), cmd)
  | .notFound m => ((false, "执行异常: " ++ m), cmd)
  | .exc m => ((false, "执行异常: " ++ m), cmd)

set_option linter.unusedVariables false in
/-- Embeds `filter_translation_lines` (stats.py lines 131-137): split on
newlines, keep lines starting with the table delimiter, rejoin.  The
`languages` parameter is accepted but unused, as in the source. -/
def filter_translation_lines (output : String) (languages : List String) : String :=
  let lines := pySplit '\n' output
  let filtered_lines := lines.filter (fun line => pyStartsWith line "|")
  String.intercalate "\n" filtered_lines

/-- Embeds `process_package` (stats.py lines 140-173).  The result is the
report section: the successive arguments of the `print` calls, a bare
`print()` contributing `""`. -/
def process_package (package_name : String) (entries : List Entry)
    (languages : List String) (run : List String → CmdOutcome) : List String :=
  let header := "## " ++ package_name ++ ":"
  let dl := download_source_package package_name entries run
  if dl.1.1 then
    let source_path := find_source_directory package_name entries
    if source_path = "" then
      [header, "", "错误: 未找到包 " ++ package_name ++ " 的源码目录", ""]
    else
      let st := get_translation_stats source_path languages run
      if st.1.1 then
        let filtered_output := filter_translation_lines st.1.2 languages
        if pyStrip filtered_output != "" then
          [header, "", filtered_output, ""]
        else
          [header, "", "未找到包含 " ++ String.intercalate ", " languages ++ " 的翻译统计信息", ""]
      else
        [header, "", st.1.2, ""]
  else
    [header, "", dl.1.2, ""]

/-- Embeds the per-package loop of `main` (stats.py lines 207-208): one
report section per package, in input order.  `fs` gives the destination
directory contents observed while processing a package, `run` its
subprocess oracle. -/
def process_all_packages (packages : List String) (fs : String → List Entry)
    (languages : List String) (run : String → List String → CmdOutcome) :
    List (List String) :=
  packages.map (fun p => process_package p (fs p) languages (run p))

/-- Embeds the language-list parsing of `main` (stats.py line 191):
split the `--languages` argument on commas, strip, drop empties. -/
def parse_languages (arg : String) : List String :=
  ((pySplit ',' arg).filter (fun lang => pyStrip lang != "")).map pyStrip

/-- Embeds `main` (stats.py lines 176-208) after argument parsing:
dependency check, language-list validation, package-list reading and
validation, then the per-package loop.  `.completes` models falling off
the end of `main`, i.e. process exit code 0.  (The `mkdir(exist_ok=True)`
call touches only the filesystem model and is elided.)  Named `main_fn`
because Lean reserves `main` for executable entry points. -/
def main_fn (aptV dtuV : CmdOutcome) (languagesArg : String) (packageFile : FileResult)
    (fs : String → List Entry) (run : String → List String → CmdOutcome) : MainResult :=
  match check_dependencies aptV dtuV with
  | .exits c _ => .exits c
  | .raises m => .raises m
  | .ok =>
    let languages := parse_languages languagesArg
    if languages = [] then .exits 1
    else
      match packageFile with
      | .notFound => .exits 1
      | .otherError _ => .exits 1
      | .ok fileLines =>
        let packages := read_package_list fileLines
        if packages = [] then .exits 1
        else .completes (process_all_packages packages fs languages run)

/-- Every report section printed by `process_package` is the four `print`
arguments: the header naming the package, a blank line, one payload line,
and the closing blank separator, whichever branch is taken. -/
theorem process_package_shape (p : String) (entries : List Entry) (langs : List String)
    (run : List String → CmdOutcome) :
    ∃ x, process_package p entries langs run = ["## " ++ p ++ ":", "", x, ""] := by
  unfold process_package
  dsimp only
  repeat' split
  all_goals exact ⟨_, rfl⟩

/-- Claim C9: the result of `filter_translation_lines` does not depend on
its `languages` argument — for every output string and any two language
lists the results coincide, since retention is decided solely by the
leading table delimiter. -/
theorem c9_filter_ignores_languages (output : String) (L1 L2 : List String) :
    filter_translation_lines output L1 = filter_translation_lines output L2 := rfl

/-- Claim C2: on stats-tool output, `filter_translation_lines` keeps
exactly the table-formatted rows (lines beginning with the delimiter), in
their original order, and rejoins them: the result is the newline join of
the sublist of delimiter-led lines, a line appears among the kept ones iff
it occurs in the output and starts with the delimiter, and the number of
kept lines is the number of delimiter-led lines; a concrete run keeps the
two table rows of a four-line output and drops the other two lines. -/
theorem c2_filter_keeps_table_rows (output : String) (languages : List String) :
    filter_translation_lines output languages =
      String.intercalate "\n" ((pySplit '\n' output).filter (fun l => pyStartsWith l "|")) ∧
    ((pySplit '\n' output).filter (fun l => pyStartsWith l "|")).Sublist
      (pySplit '\n' output) ∧
    (∀ l, l ∈ (pySplit '\n' output).filter (fun l => pyStartsWith l "|") ↔
      l ∈ pySplit '\n' output ∧ pyStartsWith l "|" = true) ∧
    ((pySplit '\n' output).filter (fun l => pyStartsWith l "|")).length =
      (pySplit '\n' output).countP (fun l => pyStartsWith l "|") ∧
    filter_translation_lines "Project stats:\n| zh_CN | 50% |\ntail\n| zh_TW | 10% |"
        ["zh_CN"] =
      "| zh_CN | 50% |" ++ "\n" ++ "| zh_TW | 10% |" := by
  refine ⟨rfl, List.filter_sublist _, ?_, (List.countP_eq_length_filter (fun l => pyStartsWith l "|") (pySplit '\n' output)).symm, by decide⟩
  intro l
  exact List.mem_filter

/-- Claim C3: `read_package_list` returns, in input order, the trimmed
contents of exactly those lines that are nonempty after trimming and do
not begin with the comment marker; on the file `foo`, `# comment`, blank,
`bar` it yields `["foo", "bar"]`. -/
theorem c3_read_package_list (fileLines : List String) :
    (∃ kept : List String, kept.Sublist fileLines ∧
      read_package_list fileLines = kept.map pyStrip ∧
      (∀ l, l ∈ kept ↔ l ∈ fileLines ∧ pyStrip l ≠ "" ∧ pyStartsWith l "#" = false)) ∧
    read_package_list ["foo", "# comment", "", "bar"] = ["foo", "bar"] := by
  refine ⟨⟨_, List.filter_sublist _, rfl, ?_⟩, by decide⟩
  intro l
  simp [List.mem_filter, and_assoc]

/-- Claim C8: `get_translation_stats` always hands `subprocess.run`
exactly the argument vector `deepin-translation-utils stats <path> -l
<languages comma-joined in order>` (with a concrete evaluation of the
comma join on the default language list), and language filtering is fully
delegated to the external tool: the client-side post-filter is
independent of the language list. -/
theorem c8_stats_invocation (source_path : String) (languages : List String)
    (run : List String → CmdOutcome) :
    (get_translation_stats source_path languages run).2 =
      ["deepin-translation-utils", "stats", source_path, "-l",
        String.intercalate "," languages] ∧
    String.intercalate "," ["zh_CN", "zh_HK", "zh_TW"] = "zh_CN,zh_HK,zh_TW" ∧
    (∀ (output : String) (L1 L2 : List String),
      filter_translation_lines output L1 = filter_translation_lines output L2) := by
  refine ⟨?_, by decide, fun _ _ _ => rfl⟩
  unfold get_translation_stats
  dsimp only
  split <;> rfl

/-- Claim C1: the per-package loop produces exactly one report section per
package, in input order; every section begins with the header line naming
its package and ends with the blank separator line, whatever the fetch and
stats outcomes for that package are.  (The oracles range over all
outcomes, including raised exceptions, and `process_package` is total, so
no exception escapes the per-package step.) -/
theorem c1_one_section_per_package (packages : List String) (fs : String → List Entry)
    (langs : List String) (run : String → List String → CmdOutcome) :
    (process_all_packages packages fs langs run).length = packages.length ∧
    List.Forall₂ (fun p sec =>
        sec.head? = some ("## " ++ p ++ ":") ∧ sec.getLast? = some "")
      packages (process_all_packages packages fs langs run) := by
  constructor
  · simp [process_all_packages]
  · induction packages with
    | nil => exact .nil
    | cons p ps ih =>
      refine List.Forall₂.cons ?_ ih
      obtain ⟨x, hx⟩ := process_package_shape p (fs p) langs (run p)
      dsimp only
      rw [hx]
      exact ⟨rfl, rfl⟩

/-- Claim C5: when any destination-directory entry matches the package's
prefix glob, `download_source_package` reports success with the skip
message naming the first match and invokes no command at all; when no
entry matches, it invokes exactly the download command
`apt source <package>`. -/
theorem c5_skip_when_existing (pkg : String) (entries : List Entry)
    (run : List String → CmdOutcome) :
    (∀ e rest, entries.filter (fun x => pyStartsWith x.name pkg) = e :: rest →
      download_source_package pkg entries run =
        ((true, "源码已存在，跳过下载: " ++ e.name), [])) ∧
    (entries.filter (fun x => pyStartsWith x.name pkg) = [] →
      (download_source_package pkg entries run).2 = [["apt", "source", pkg]]) := by
  constructor
  · intro e rest h
    unfold download_source_package
    dsimp only
    rw [h]
  · intro h
    unfold download_source_package
    dsimp only
    rw [h]
    dsimp only
    split <;> rfl

/-- Witness for C5 at concrete inputs: one matching entry means skip
success with no invocation; no matching entry means exactly the `apt
source` invocation. -/
theorem c5_skip_when_existing_witness :
    download_source_package "foo" [⟨"foo-1.0", true⟩] (fun _ => CmdOutcome.ok "" "") =
      ((true, "源码已存在，跳过下载: " ++ "foo-1.0"), []) ∧
    (download_source_package "bar" [] (fun _ => CmdOutcome.ok "" "")).2 =
      [["apt", "source", "bar"]] :=
  ⟨(c5_skip_when_existing "foo" [⟨"foo-1.0", true⟩] (fun _ => CmdOutcome.ok "" "")).1
      ⟨"foo-1.0", true⟩ [] (by decide),
    (c5_skip_when_existing "bar" [] (fun _ => CmdOutcome.ok "" "")).2 (by decide)⟩

/-- Claim C10: when every entry matching the prefix glob is a
non-directory file (and at least one matches), `download_source_package`
still reports skip success without invoking anything, while
`find_source_directory` returns the empty string, so the package's report
section carries the source-directory-not-found error instead of
statistics. -/
theorem c10_nondirectory_matches (pkg : String) (entries : List Entry) (langs : List String)
    (run : List String → CmdOutcome) (e : Entry) (rest : List Entry)
    (hmatch : entries.filter (fun x => pyStartsWith x.name pkg) = e :: rest)
    (hfiles : ∀ x ∈ entries.filter (fun x => pyStartsWith x.name pkg), x.isDir = false) :
    download_source_package pkg entries run =
      ((true, "源码已存在，跳过下载: " ++ e.name), []) ∧
    find_source_directory pkg entries = "" ∧
    process_package pkg entries langs run =
      ["## " ++ pkg ++ ":", "", "错误: 未找到包 " ++ pkg ++ " 的源码目录", ""] := by
  have hdl : download_source_package pkg entries run =
      ((true, "源码已存在，跳过下载: " ++ e.name), []) := by
    unfold download_source_package
    dsimp only
    rw [hmatch]
  have hinner : (entries.filter (fun x => pyStartsWith x.name pkg)).filter
      (fun p => p.isDir) = [] := by
    rw [List.filter_eq_nil_iff]
    intro a ha
    simp [hfiles a ha]
  have hfind : find_source_directory pkg entries = "" := by
    unfold find_source_directory
    dsimp only
    rw [hinner]
  refine ⟨hdl, hfind, ?_⟩
  unfold process_package
  dsimp only
  rw [hdl, hfind]
  rfl

/-- Witness for C10 at concrete inputs: a lone matching tarball file. -/
theorem c10_nondirectory_matches_witness :
    download_source_package "foo" [⟨"foo-1.0.tar.gz", false⟩] (fun _ => CmdOutcome.ok "" "") =
      ((true, "源码已存在，跳过下载: " ++ "foo-1.0.tar.gz"), []) ∧
    find_source_directory "foo" [⟨"foo-1.0.tar.gz", false⟩] = "" ∧
    process_package "foo" [⟨"foo-1.0.tar.gz", false⟩] ["zh_CN"]
        (fun _ => CmdOutcome.ok "" "") =
      ["## " ++ "foo" ++ ":", "", "错误: 未找到包 " ++ "foo" ++ " 的源码目录", ""] :=
  c10_nondirectory_matches "foo" [⟨"foo-1.0.tar.gz", false⟩] ["zh_CN"]
    (fun _ => CmdOutcome.ok "" "") ⟨"foo-1.0.tar.gz", false⟩ [] (by decide) (by decide)

/-- Claim C6: when the fetch succeeds (here: an existing directory match),
the source directory is found, the stats tool succeeds, and none of its
output lines is a table row, `process_package` prints the fixed not-found
message naming all requested languages (comma-joined) — the successful
report section is never empty. -/
theorem c6_not_found_message (pkg : String) (entries : List Entry) (langs : List String)
    (run : List String → CmdOutcome) (e : Entry) (rest : List Entry) (out err : String)
    (hdirs : (entries.filter (fun x => pyStartsWith x.name pkg)).filter
      (fun p => p.isDir) = e :: rest)
    (hname : e.name ≠ "")
    (hrun : run ["deepin-translation-utils", "stats", e.name, "-l",
      String.intercalate "," langs] = .ok out err)
    (hnorows : (pySplit '\n' out).filter (fun l => pyStartsWith l "|") = []) :
    process_package pkg entries langs run =
      ["## " ++ pkg ++ ":", "",
        "未找到包含 " ++ String.intercalate ", " langs ++ " 的翻译统计信息", ""] := by
  obtain ⟨f, fr, hf⟩ : ∃ f fr,
      entries.filter (fun x => pyStartsWith x.name pkg) = f :: fr := by
    cases hcase : entries.filter (fun x => pyStartsWith x.name pkg) with
    | nil => rw [hcase] at hdirs; simp at hdirs
    | cons f fr => exact ⟨f, fr, rfl⟩
  have hdl : download_source_package pkg entries run =
      ((true, "源码已存在，跳过下载: " ++ f.name), []) := by
    unfold download_source_package
    dsimp only
    rw [hf]
  have hfind : find_source_directory pkg entries = e.name := by
    unfold find_source_directory
    dsimp only
    rw [hdirs]
  have hstats : get_translation_stats e.name langs run =
      ((true, out), ["deepin-translation-utils", "stats", e.name, "-l",
        String.intercalate "," langs]) := by
    unfold get_translation_stats
    dsimp only
    rw [hrun]
  have hfilter : filter_translation_lines out langs = "" := by
    unfold filter_translation_lines
    dsimp only
    rw [hnorows]
    rfl
  unfold process_package
  dsimp only
  rw [hdl, hfind, if_neg hname, hstats]
  simp only [hfilter]
  rfl

/-- Witness for C6 at concrete inputs: the stats output has no
delimiter-led line, so the section carries the not-found message. -/
theorem c6_not_found_message_witness :
    process_package "foo" [⟨"foo-1.0", true⟩] ["zh_CN"]
        (fun _ => CmdOutcome.ok "no tables here" "") =
      ["## " ++ "foo" ++ ":", "",
        "未找到包含 " ++ String.intercalate ", " ["zh_CN"] ++ " 的翻译统计信息", ""] :=
  c6_not_found_message "foo" [⟨"foo-1.0", true⟩] ["zh_CN"]
    (fun _ => CmdOutcome.ok "no tables here" "") ⟨"foo-1.0", true⟩ []
    "no tables here" "" (by decide) (by decide) rfl (by decide)

/-- Claim C7: with both external tools invoking successfully,
`check_dependencies` exits with code 1 and a stderr message when no
version triple can be parsed from the stats utility's version output, or
when the parsed triple is lexicographically below (0, 4, 0); when the
parsed triple is at or above (0, 4, 0) it returns normally. -/
theorem c7_version_gate (aptOut aptErr dtuOut dtuErr : String) :
    (reSearchVersion (pyStrip dtuOut).data = none →
      check_dependencies (.ok aptOut aptErr) (.ok dtuOut dtuErr) =
        .exits 1 "错误: 无法解析 deepin-translation-utils 版本号") ∧
    (∀ major minor patch,
      reSearchVersion (pyStrip dtuOut).data = some (major, minor, patch) →
      (versionLt (major, minor, patch) (0, 4, 0) = true →
        check_dependencies (.ok aptOut aptErr) (.ok dtuOut dtuErr) =
          .exits 1 ("错误: deepin-translation-utils 版本过低 (" ++ toString major ++ "." ++
            toString minor ++ "." ++ toString patch ++ ")，需要 >= 0.4.0")) ∧
      (versionLt (major, minor, patch) (0, 4, 0) = false →
        check_dependencies (.ok aptOut aptErr) (.ok dtuOut dtuErr) = .ok)) := by
  constructor
  · intro h
    unfold check_dependencies
    dsimp only
    rw [h]
  · intro major minor patch h
    constructor
    · intro hlt
      unfold check_dependencies
      dsimp only
      rw [h]
      simp only [hlt]
      rfl
    · intro hge
      unfold check_dependencies
      dsimp only
      rw [h]
      simp only [hge]
      rfl

/-- Witness for C7 at concrete inputs: the documented version-output
format parses to (0, 4, 0), which passes the gate; a 0.3.9 output makes
the checker exit with code 1. -/
theorem c7_version_gate_witness :
    check_dependencies (.ok "" "") (.ok "deepin-translation-utils 0.4.0-0-g08b7ee6" "") =
      .ok ∧
    check_dependencies (.ok "" "") (.ok "deepin-translation-utils 0.3.9" "") =
      .exits 1 ("错误: deepin-translation-utils 版本过低 (" ++ toString (0 : Nat) ++ "." ++
        toString (3 : Nat) ++ "." ++ toString (9 : Nat) ++ ")，需要 >= 0.4.0") :=
  ⟨((c7_version_gate "" "" "deepin-translation-utils 0.4.0-0-g08b7ee6" "").2
      0 4 0 (by decide)).2 (by decide),
    ((c7_version_gate "" "" "deepin-translation-utils 0.3.9" "").2
      0 3 9 (by decide)).1 (by decide)⟩

/-- `check_dependencies` only ever exits with code 1. -/
theorem check_dependencies_exit_code (aptV dtuV : CmdOutcome) (c : Nat) (msg : String)
    (h : check_dependencies aptV dtuV = .exits c msg) : c = 1 := by
  unfold check_dependencies at h
  rcases aptV with _ | _ | _ | _ <;> rcases dtuV with _ | _ | _ | _ <;> simp_all
  split at h
  · exact (DepResult.exits.inj h).1.symm
  · split at h
    · exact (DepResult.exits.inj h).1.symm
    · exact absurd h (by simp)

/-- Claim C4: startup validation fatality and normal completion.  A file
of only blank and comment lines reads to the empty sequence and makes the
process exit with code 1; any dependency-check failure exits with code 1;
an empty parsed language list exits with code 1; an unreadable package
file (missing or otherwise failing) exits with code 1; and when all
validation passes, the process completes normally (exit code 0) with one
section per package, however the per-package oracles behave. -/
theorem c4_exit_codes (aptV dtuV : CmdOutcome) (langArg : String) (pf : FileResult)
    (fs : String → List Entry) (run : String → List String → CmdOutcome) :
    (∀ fileLines : List String,
      (∀ l ∈ fileLines, pyStrip l = "" ∨ pyStartsWith l "#" = true) →
      read_package_list fileLines = [] ∧
      (check_dependencies aptV dtuV = .ok → parse_languages langArg ≠ [] →
        main_fn aptV dtuV langArg (.ok fileLines) fs run = .exits 1)) ∧
    (∀ c msg, check_dependencies aptV dtuV = .exits c msg →
      c = 1 ∧ main_fn aptV dtuV langArg pf fs run = .exits 1) ∧
    (check_dependencies aptV dtuV = .ok → parse_languages langArg = [] →
      main_fn aptV dtuV langArg pf fs run = .exits 1) ∧
    (check_dependencies aptV dtuV = .ok → parse_languages langArg ≠ [] →
      pf = .notFound ∨ (∃ m, pf = .otherError m) →
      main_fn aptV dtuV langArg pf fs run = .exits 1) ∧
    (∀ fileLines : List String,
      check_dependencies aptV dtuV = .ok → parse_languages langArg ≠ [] →
      read_package_list fileLines ≠ [] →
      main_fn aptV dtuV langArg (.ok fileLines) fs run =
        .completes (process_all_packages (read_package_list fileLines) fs
          (parse_languages langArg) run)) := by
  refine ⟨?_, ?_, ?_, ?_, ?_⟩
  · intro fileLines hblank
    have hread : read_package_list fileLines = [] := by
      unfold read_package_list
      rw [List.filter_eq_nil_iff.mpr ?_]
      · rfl
      · intro l hl
        rcases hblank l hl with h | h <;> simp [h]
    refine ⟨hread, ?_⟩
    intro hdep hlang
    unfold main_fn
    rw [hdep]
    dsimp only
    rw [if_neg hlang, hread]
    rfl
  · intro c msg hdep
    have hc : c = 1 := check_dependencies_exit_code aptV dtuV c msg hdep
    refine ⟨hc, ?_⟩
    unfold main_fn
    rw [hdep, hc]
  · intro hdep hlang
    unfold main_fn
    rw [hdep]
    dsimp only
    rw [if_pos hlang]
  · intro hdep hlang hpf
    unfold main_fn
    rw [hdep]
    dsimp only
    rw [if_neg hlang]
    rcases hpf with h | ⟨m, h⟩ <;> rw [h]
  · intro fileLines hdep hlang hread
    unfold main_fn
    rw [hdep]
    dsimp only
    rw [if_neg hlang]
    rw [if_neg hread]

/-- Witness for C4 at concrete inputs: a blank-and-comment-only file reads
to the empty list and drives `main` to exit code 1, and a missing package
file also exits with code 1, both under passing dependency checks and a
nonempty language list; a nonblank file completes normally even though
every download fails. -/
theorem c4_exit_codes_witness :
    (read_package_list ["# only", "  ", ""] = [] ∧
      main_fn (.ok "" "") (.ok "deepin-translation-utils 0.4.0" "") "zh_CN"
        (.ok ["# only", "  ", ""]) (fun _ => []) (fun _ _ => .fail 100 "" "boom") =
        .exits 1) ∧
    main_fn (.ok "" "") (.ok "deepin-translation-utils 0.4.0" "") "zh_CN"
      .notFound (fun _ => []) (fun _ _ => .fail 100 "" "boom") = .exits 1 ∧
    main_fn (.ok "" "") (.ok "deepin-translation-utils 0.4.0" "") "zh_CN"
      (.ok ["foo"]) (fun _ => []) (fun _ _ => .fail 100 "" "boom") =
      .completes (process_all_packages ["foo"] (fun _ => []) ["zh_CN"]
        (fun _ _ => .fail 100 "" "boom")) := by
  refine ⟨?_, ?_, ?_⟩
  · have h := (c4_exit_codes (.ok "" "") (.ok "deepin-translation-utils 0.4.0" "") "zh_CN"
      (.ok ["# only", "  ", ""]) (fun _ => []) (fun _ _ => .fail 100 "" "boom")).1
      ["# only", "  ", ""] (by decide)
    exact ⟨h.1, h.2 (by decide) (by decide)⟩
  · exact (c4_exit_codes (.ok "" "") (.ok "deepin-translation-utils 0.4.0" "") "zh_CN"
      .notFound (fun _ => []) (fun _ _ => .fail 100 "" "boom")).2.2.2.1
      (by decide) (by decide) (Or.inl rfl)
  · have h := (c4_exit_codes (.ok "" "") (.ok "deepin-translation-utils 0.4.0" "") "zh_CN"
      (.ok ["foo"]) (fun _ => []) (fun _ _ => .fail 100 "" "boom")).2.2.2.2
      ["foo"] (by decide) (by decide) (by decide)
    have hpkgs : read_package_list ["foo"] = ["foo"] := by decide
    have hlangs : parse_languages "zh_CN" = ["zh_CN"] := by decide
    rw [hpkgs, hlangs] at h
    exact h
